import Mathlib

/-!
Verification of the Parramatta property-listings scraper (`scraper.py`).

The script is embedded shallowly:
* JSON values (the API response and each raw listing) are an inductive
  `JsonVal`; Python `None` and JSON `null` coincide in `JsonVal.null`,
  exactly as they do after `json` parsing in Python.
* Python truthiness (`if x:`) is the Boolean `truthy`.
* The fallible builtin `int(...)` is `pyIntE` (an `Except`, whose `error`
  models a raised exception); the script's `try/except: ... = None`
  wrappers become `exceptToNone`.
* Floating point arithmetic is idealised over `ℝ` (the haversine formula);
  coordinate payloads are carried as `ℚ`.  `round(x, 2)` is `round2`.
* The two outbound HTTP effects are inputs of the embedded main function:
  the listing API call is `(status, j)`, the geocoder is a function
  `String → Option (ℚ × ℚ)` (with `none` covering network failure, parse
  failure and the empty result list alike, each of which the script
  swallows).  PDF drawing calls are recorded as a `List OutLine`.
-/

/-- JSON values as Python sees them after `r.json()`.  Python `None` and
JSON `null` are both `null`; objects keep insertion order (Python dicts
preserve it), keys are assumed unique as in any `dict`. -/
inductive JsonVal where
  | null : JsonVal
  | bool : Bool → JsonVal
  | num : ℚ → JsonVal
  | str : String → JsonVal
  | arr : List JsonVal → JsonVal
  | obj : List (String × JsonVal) → JsonVal

/-- Python truthiness of a value (`if x:`). -/
def truthy : JsonVal → Bool
  | .null => false
  | .bool b => b
  | .num q => decide (q ≠ 0)
  | .str s => decide (s ≠ "")
  | .arr [] => false
  | .arr (_ :: _) => true
  | .obj [] => false
  | .obj (_ :: _) => true

/-- Python `x is None`. -/
def isNull : JsonVal → Bool
  | .null => true
  | _ => false

/-- Python `str(...)` on the values the script ever formats.  The script
only formats addresses, URLs and raw price fields, which are strings in
practice; rendering of the remaining shapes is an approximation whose
exact text no claim depends on. -/
def pyStr : JsonVal → String
  | .null => "None"
  | .bool b => if b then "True" else "False"
  | .num q => toString q
  | .str s => s
  | .arr _ => "[...]"
  | .obj _ => "\x7b...\x7d"

/-- Truncation toward zero, the behaviour of Python `int()` on a float. -/
def ratTrunc (q : ℚ) : ℤ :=
  if 0 ≤ q then ⌊q⌋ else -⌊-q⌋

/-- Strip leading and trailing whitespace (Python `str.strip()` as done
inside `int(...)` / `float(...)`). -/
def stripWS (cs : List Char) : List Char :=
  ((cs.dropWhile Char.isWhitespace).reverse.dropWhile Char.isWhitespace).reverse

/-- Decimal value of a list of digit characters. -/
def digitsVal (cs : List Char) : ℕ :=
  cs.foldl (fun a c => 10 * a + (c.toNat - 48)) 0

/-- Digit groups as accepted by Python's `int()` after the first digit:
digits with single underscores allowed only between digits.  Returns the
digits with underscores removed. -/
def pyDigitsRest : List Char → Option (List Char)
  | [] => some []
  | c :: cs =>
    if c = '_' then
      match cs with
      | [] => none
      | d :: ds => if d.isDigit then (pyDigitsRest ds).map (d :: ·) else none
    else if c.isDigit then (pyDigitsRest cs).map (c :: ·) else none

/-- A full digit group of Python's `int()`: at least one digit, single
underscores only between digits. -/
def pyDigits : List Char → Option (List Char)
  | [] => none
  | c :: cs => if c.isDigit then (pyDigitsRest cs).map (c :: ·) else none

/-- Python `int(s)` on an already-stripped character list: optional sign,
then a digit group. -/
def pyIntCore (cs : List Char) : Option ℤ :=
  match cs with
  | [] => none
  | c :: rest =>
    if c = '+' then (pyDigits rest).map (fun ds => (digitsVal ds : ℤ))
    else if c = '-' then (pyDigits rest).map (fun ds => -(digitsVal ds : ℤ))
    else (pyDigits (c :: rest)).map (fun ds => (digitsVal ds : ℤ))

/-- Python `int(s)` for a string argument. -/
def pyIntOfString (s : String) : Option ℤ :=
  pyIntCore (stripWS s.toList)

/-- Python `int(x)`: `error` models the raised `ValueError`/`TypeError`
that the script's `try/except` blocks catch. -/
def pyIntE : JsonVal → Except String ℤ
  | .num q => .ok (ratTrunc q)
  | .bool b => .ok (if b then 1 else 0)
  | .str s =>
    match pyIntOfString s with
    | some n => .ok n
    | none => .error "invalid literal for int"
  | _ => .error "int argument must be a string or a number"

/-- `try: ... except Exception: ... = None` around an `int(...)` call. -/
def exceptToNone : Except String ℤ → Option ℤ
  | .ok n => some n
  | .error _ => none

/-- Python `float(s)` on a stripped, unsigned character list: digits with
an optional decimal point, at least one digit in total.  (Exponent forms
and `inf`/`nan`, which the script never receives from the geocoder, are
not modelled.) -/
def pyFloatCore (cs : List Char) : Option ℚ :=
  let ip := cs.takeWhile Char.isDigit
  match cs.dropWhile Char.isDigit with
  | [] => if ip = [] then none else some (digitsVal ip : ℚ)
  | '.' :: fp =>
    if fp.all Char.isDigit ∧ (ip ≠ [] ∨ fp ≠ []) then
      some ((digitsVal ip : ℚ) + (digitsVal fp : ℚ) / (10 ^ fp.length))
    else none
  | _ => none

/-- Python `float(s)` for a string argument. -/
def pyFloatOfString (s : String) : Option ℚ :=
  match stripWS s.toList with
  | '+' :: rest => pyFloatCore rest
  | '-' :: rest => (pyFloatCore rest).map Neg.neg
  | rest => pyFloatCore rest

/-- Python `float(x)`: `none` models a raised exception. -/
def pyFloat : JsonVal → Option ℚ
  | .num q => some q
  | .bool b => some (if b then 1 else 0)
  | .str s => pyFloatOfString s
  | _ => none

/-- `try_get(o, keys)` from the script: return `o[k]` for the first key
present in the dict `o`, else Python `None` (`JsonVal.null`). -/
def try_get (o : JsonVal) : List String → JsonVal
  | [] => .null
  | k :: ks =>
    match o with
    | .obj kvs =>
      match kvs.lookup k with
      | some v => v
      | none => try_get o ks
    | _ => .null

/-- Worker for `digitRuns`: `cur` is the run of digits currently being
read, in reverse. -/
def digitRunsGo (cur : List Char) : List Char → List (List Char)
  | [] =>
    match cur with
    | [] => []
    | _ :: _ => [cur.reverse]
  | c :: rest =>
    if c.isDigit then digitRunsGo (c :: cur) rest
    else
      match cur with
      | [] => digitRunsGo [] rest
      | _ :: _ => cur.reverse :: digitRunsGo [] rest

/-- Maximal runs of decimal digits in a character list:
`re.findall(r"\d+", s)`. -/
def digitRuns (cs : List Char) : List (List Char) :=
  digitRunsGo [] cs

/-- `s.replace(",", "")` — dropping every comma, done on the character
list. -/
def dropCommas (s : String) : List Char :=
  s.toList.filter (fun c => c ≠ ',')

/-- The price sanitising block of `extract_field` (lines 74–84): numeric
values (Python counts `bool` as numeric) are truncated by `int()`;
strings have commas removed, digit runs extracted and concatenated, then
parsed; anything else, or a string without digits, gives `None`. -/
def priceVal : JsonVal → Option ℤ
  | .num q => exceptToNone (pyIntE (.num q))
  | .bool b => exceptToNone (pyIntE (.bool b))
  | .str s =>
    let nums := digitRuns (dropCommas s)
    if nums.isEmpty then none
    else exceptToNone (pyIntE (.str (String.mk nums.flatten)))
  | _ => none

/-- Python `v in (None, "")` as used on the beds/baths/cars fields. -/
def isNullOrEmptyStr : JsonVal → Bool
  | .null => true
  | .str s => decide (s = "")
  | _ => false

/-- The shared beds/baths/cars sanitising pattern of `extract_field`:
`int(v) if v not in (None, "") else None`, wrapped in
`try/except: None`. -/
def intField (v : JsonVal) : Option ℤ :=
  if isNullOrEmptyStr v then none
  else exceptToNone (pyIntE v)

/-- The canonical record built by `extract_field`.  `price_raw`,
`address`, `url`, `lat` and `lon` are carried as raw Python values
(`JsonVal`), exactly as the script stores them. -/
structure NormalizedListing where
  price_raw : JsonVal
  price : Option ℤ
  beds : Option ℤ
  baths : Option ℤ
  cars : Option ℤ
  address : JsonVal
  url : JsonVal
  lat : JsonVal
  lon : JsonVal

def priceKeys : List String := ["price", "price_display", "price_value", "price_min", "asking_price"]
def bedKeys : List String := ["bedrooms", "beds", "bed"]
def bathKeys : List String := ["bathrooms", "baths", "bath"]
def carKeys : List String := ["carspaces", "cars", "parking", "car"]
def addressKeys : List String := ["address", "full_address", "displayable_address", "formatted_address"]
def urlKeys : List String := ["url", "ldp_url", "listing_url", "detail_url"]
def latKeys : List String := ["lat", "latitude"]
def lonKeys : List String := ["lon", "lng", "longitude"]

/-- `extract_field(listing)` (lines 63–109). -/
def extract_field (listing : JsonVal) : NormalizedListing :=
  let price := try_get listing priceKeys
  let beds := try_get listing bedKeys
  let baths := try_get listing bathKeys
  let cars := try_get listing carKeys
  let address := try_get listing addressKeys
  let url := try_get listing urlKeys
  let lat := try_get listing latKeys
  let lon := try_get listing lonKeys
  { price_raw := price
    price := priceVal price
    beds := intField beds
    baths := intField baths
    cars := intField cars
    address := address
    url := url
    lat := lat
    lon := lon }

/-! ## Listing-container locator (`find_listings_container`, lines 42–55) -/

/-- The fixed priority list of conventional container key names. -/
def candidates : List String := ["properties", "listings", "results", "data", "items"]

/-- The first candidate key whose value in the dict is a list
(`for k in candidates: if k in j and isinstance(j[k], list): return j[k]`). -/
def priorityLookup (kvs : List (String × JsonVal)) : List String → Option (List JsonVal)
  | [] => none
  | k :: ks =>
    match kvs.lookup k with
    | some (JsonVal.arr l) => some l
    | _ => priorityLookup kvs ks

/-- The fallback scan
(`for k,v in j.items(): if isinstance(v, list) and len(v) and isinstance(v[0], dict): return v`). -/
def fallbackScan : List (String × JsonVal) → Option (List JsonVal)
  | [] => none
  | (_, v) :: rest =>
    match v with
    | JsonVal.arr (x :: xs) =>
      match x with
      | JsonVal.obj _ => some (x :: xs)
      | _ => fallbackScan rest
    | _ => fallbackScan rest

/-- `find_listings_container(j)`. -/
def find_listings_container (j : JsonVal) : Option (List JsonVal) :=
  match j with
  | JsonVal.obj kvs =>
    match priorityLookup kvs candidates with
    | some l => some l
    | none => fallbackScan kvs
  | JsonVal.arr xs => some xs
  | _ => none

/-- Modelled from the spec: the locator algorithm exactly as §4.1 words
it (priority keys via a first-match scan, then the first non-empty
list-of-records value in iteration order, a top-level list returned
directly), for comparison with the source translation above. -/
def spec_locate (j : JsonVal) : Option (List JsonVal) :=
  match j with
  | JsonVal.obj kvs =>
    match candidates.findSome? (fun k =>
        match kvs.lookup k with
        | some (JsonVal.arr l) => some l
        | _ => none) with
    | some l => some l
    | none =>
      kvs.findSome? (fun kv =>
        match kv.2 with
        | JsonVal.arr (x :: xs) =>
          match x with
          | JsonVal.obj _ => some (x :: xs)
          | _ => none
        | _ => none)
  | JsonVal.arr xs => some xs
  | _ => none

/-! ## Heuristic annotator (lines 179–194) -/

/-- Python truthiness of an optional integer field. -/
def truthyI : Option ℤ → Bool
  | some n => decide (n ≠ 0)
  | none => false

/-- `o >= k` guarded by truthiness (`if o and o >= k`). -/
def cmpGe (o : Option ℤ) (k : ℤ) : Bool :=
  match o with
  | some n => decide (k ≤ n)
  | none => false

/-- `o <= k` guarded by truthiness (`if o and o <= k`). -/
def cmpLe (o : Option ℤ) (k : ℤ) : Bool :=
  match o with
  | some n => decide (n ≤ k)
  | none => false

/-- Lines 181–184: `if item["cars"] and item["cars"] >= 1`. -/
def carRule (item : NormalizedListing) : List String × List String :=
  if truthyI item.cars && cmpGe item.cars 1 then (["Has 1+ car space"], [])
  else ([], ["No dedicated parking listed"])

/-- Lines 186–189: the beds/baths rule. -/
def bedRule (item : NormalizedListing) : List String × List String :=
  if (item.beds == some 2) && truthyI item.baths && cmpGe item.baths 2 then
    (["2 beds + 2 baths"], [])
  else if (item.beds == some 2) && (!truthyI item.baths || item.baths == some 1) then
    ([], ["Only 1 bath for 2 beds"])
  else ([], [])

/-- Lines 191–194: the price rule, against `MAX_PRICE`. -/
def priceRule (item : NormalizedListing) (max_price : ℤ) : List String × List String :=
  if truthyI item.price && cmpLe item.price (max_price - 50000) then
    (["Good value under budget"], [])
  else if truthyI item.price && cmpGe item.price (max_price - 10000) then
    ([], ["Close to top of budget"])
  else ([], [])

/-- The pros/cons block of the main loop.  The script appends to `pros`
and `cons` rule by rule (cars, then beds/baths, then price); each rule's
contribution is independent, so the lists are the concatenations of the
three rules' outputs in that order. -/
def annotate (item : NormalizedListing) (max_price : ℤ) : List String × List String :=
  ((carRule item).1 ++ (bedRule item).1 ++ (priceRule item max_price).1,
   (carRule item).2 ++ (bedRule item).2 ++ (priceRule item max_price).2)

/-! ## Geo-enrichment and distances (lines 20–37, 149–202) -/

def STATION_COORDS : ℚ × ℚ := (-33.8178, 151.0035)
def PARK_COORDS : ℚ × ℚ := (-33.8145, 151.0024)

/-- `math.radians`. -/
noncomputable def radians (x : ℝ) : ℝ := x * Real.pi / 180

/-- `haversine_km(lat1, lon1, lat2, lon2)` (lines 29–37), over ideal
reals. -/
noncomputable def haversine_km (lat1 lon1 lat2 lon2 : ℝ) : ℝ :=
  let R : ℝ := 6371.0
  let phi1 := radians lat1
  let phi2 := radians lat2
  let dphi := radians (lat2 - lat1)
  let dlambda := radians (lon2 - lon1)
  let a := Real.sin (dphi / 2) ^ 2 +
    Real.cos phi1 * Real.cos phi2 * Real.sin (dlambda / 2) ^ 2
  R * 2 * Real.arcsin (Real.sqrt a)

/-- `round(x, 2)`, to two decimal places. -/
noncomputable def round2 (x : ℝ) : ℝ := (round (x * 100) : ℤ) / 100

/-- `km_to_walk_minutes(km)` (lines 25–27): `int(round(km * 12))`. -/
noncomputable def km_to_walk_minutes (km : ℝ) : ℤ := round (km * 12)

/-- The distance block of the main loop (lines 168–176): distances are
computed only under `if item["lat"] and item["lon"]:` (Python
truthiness), with `float(...)` conversions whose failure is caught and
leaves both distances `None`. -/
noncomputable def distances (lat lon : JsonVal) : Option ℝ × Option ℝ :=
  if truthy lat && truthy lon then
    match pyFloat lat, pyFloat lon with
    | some a, some b =>
      (some (round2 (haversine_km a b STATION_COORDS.1 STATION_COORDS.2)),
       some (round2 (haversine_km a b PARK_COORDS.1 PARK_COORDS.2)))
    | _, _ => (none, none)
  else (none, none)

/-- One entry of the `props` list built by the main loop. -/
structure EnrichedListing where
  raw : NormalizedListing
  dist_station_km : Option ℝ
  dist_park_km : Option ℝ
  pros : List String
  cons : List String

/-- The per-listing body of the main loop (lines 150–202): normalize,
geocode when a coordinate is `None` and an address is truthy, compute
distances, annotate.  `geo` abstracts the Nominatim call: `none` covers
a network error, a parse error and an empty result list, all of which
the script swallows. -/
noncomputable def enrich (geo : String → Option (ℚ × ℚ)) (max_price : ℤ)
    (L : JsonVal) : EnrichedListing :=
  let item0 := extract_field L
  let item :=
    if (isNull item0.lat || isNull item0.lon) && truthy item0.address then
      match geo (pyStr item0.address ++ ", Parramatta NSW") with
      | some (a, b) => { item0 with lat := .num a, lon := .num b }
      | none => item0
    else item0
  let d := distances item.lat item.lon
  let pc := annotate item max_price
  { raw := item
    dist_station_km := d.1
    dist_park_km := d.2
    pros := pc.1
    cons := pc.2 }

/-- The `props` accumulation loop: one entry appended per listing. -/
noncomputable def processListings (geo : String → Option (ℚ × ℚ)) (max_price : ℤ)
    (listings : List JsonVal) : List EnrichedListing :=
  listings.map (enrich geo max_price)

/-! ## Report renderer (lines 204–241) -/

/-- One rendering call of the PDF loop, with its semantic payload; the
distance lines carry the kilometre value and walking minutes that the
script interpolates into the text. -/
inductive OutLine where
  | text : String → OutLine
  | distStation : ℝ → ℤ → OutLine
  | distPark : ℝ → ℤ → OutLine

/-- `i.get("beds") or "?"` as displayed (falsy values — `None` and `0` —
fall back to `"?"`). -/
def orQmark (o : Option ℤ) : String :=
  match o with
  | some n => if n = 0 then "?" else toString n
  | none => "?"

/-- `i.get("address") or str(i.get("url") or "Property")` (line 214). -/
def titleOf (i : NormalizedListing) : String :=
  if truthy i.address then pyStr i.address
  else if truthy i.url then pyStr i.url
  else "Property"

/-- `price_text` (line 215): the raw price field if truthy, else
`f"$\x7bi.get('price')\x7d"` if the parsed price is truthy, else
`"Price unknown"`. -/
def price_text (i : NormalizedListing) : String :=
  if truthy i.price_raw then pyStr i.price_raw
  else if truthyI i.price then "$" ++ toString (i.price.getD 0)
  else "Price unknown"

/-- The beds/baths/cars summary line (lines 219–222). -/
def summaryLine (i : NormalizedListing) : String :=
  orQmark i.beds ++ " bed | " ++ orQmark i.baths ++ " bath | " ++ orQmark i.cars ++ " car"

/-- One listing block of the PDF loop (lines 212–237). -/
noncomputable def block (p : EnrichedListing) : List OutLine :=
  [OutLine.text (titleOf p.raw ++ " — " ++ price_text p.raw),
   OutLine.text (summaryLine p.raw)]
  ++ (if truthy p.raw.url then [OutLine.text ("Link: " ++ pyStr p.raw.url)] else [])
  ++ (match p.dist_station_km with
      | some d => [OutLine.distStation d (km_to_walk_minutes d)]
      | none => [])
  ++ (match p.dist_park_km with
      | some d => [OutLine.distPark d (km_to_walk_minutes d)]
      | none => [])
  ++ (match p.pros with
      | [] => []
      | _ :: _ => [OutLine.text ("Pros: " ++ String.intercalate ", " p.pros)])
  ++ (match p.cons with
      | [] => []
      | _ :: _ => [OutLine.text ("Cons: " ++ String.intercalate ", " p.cons)])

/-- One block per enriched listing, in input order. -/
noncomputable def listingBlocks (props : List EnrichedListing) : List (List OutLine) :=
  props.map block

/-- The whole PDF: title line, then the listing blocks. -/
noncomputable def render (max_price : ℤ) (props : List EnrichedListing) : List OutLine :=
  OutLine.text ("Parramatta Property Listings (Under $" ++ toString max_price ++ ")")
    :: (listingBlocks props).flatten

/-! ## Main (`run_search_and_build_pdf`, lines 112–241) -/

/-- Truthiness of `os.getenv(...)`: `None` or the empty string are
falsy. -/
def pyTruthyEnv : Option String → Bool
  | none => false
  | some s => decide (s ≠ "")

/-- `run_search_and_build_pdf`, with its effects as inputs: the
credentials from the environment, the listing API response
`(status, j)`, and the geocoder.  `Except.error` models `raise
SystemExit(msg)` (a non-zero exit with a diagnostic message); `Except.ok`
is a completed run with the PDF content it writes. -/
noncomputable def run_search_and_build_pdf (key host : Option String) (max_price : ℤ)
    (status : ℕ) (j : JsonVal) (geo : String → Option (ℚ × ℚ)) :
    Except String (List OutLine) :=
  if !pyTruthyEnv key || !pyTruthyEnv host then
    .error "RAPIDAPI_KEY and RAPIDAPI_HOST must be set as environment variables."
  else if status ≠ 200 then
    .error "API request failed. Check host/key/params in RapidAPI UI."
  else
    match find_listings_container j with
    | none =>
      .error "No listings container found. Please paste a small sample JSON and I will adapt the script."
    | some listings =>
      match listings with
      | [] =>
        .error "No listings container found. Please paste a small sample JSON and I will adapt the script."
      | _ :: _ =>
        .ok (render max_price (processListings geo max_price listings))

/-- Whether the embedded run aborted (`raise SystemExit`). -/
def isErr {α : Type} : Except String α → Bool
  | .error _ => true
  | .ok _ => false

/-- A geocoder that always fails; used for concrete evaluations. -/
def geoNone : String → Option (ℚ × ℚ) := fun _ => none

/-- "Is a float or `null`", the shape §3 of the spec asserts for the
normalized latitude/longitude fields. -/
def isNumOrNull : JsonVal → Bool
  | .num _ => true
  | .null => true
  | _ => false

/-! ### Concrete sample inputs used by witnesses and counterexamples -/

/-- A response whose `"properties"` key holds an empty list. -/
def emptyContainerResponse : JsonVal := .obj [("properties", .arr [])]

/-- A response with a conventional key next to an unrelated one. -/
def sampleResponse : JsonVal :=
  .obj [("meta", .num 1), ("properties", .arr [.obj [("price", .num 450000)]])]

/-- A raw listing whose coordinates are the floats `0.0` / `151.0`. -/
def listingZeroLat : JsonVal := .obj [("lat", .num 0), ("lon", .num 151)]

/-- A raw listing with ordinary nonzero coordinates. -/
def listingWithCoords : JsonVal := .obj [("lat", .num (-33)), ("lon", .num 151)]

/-- A raw listing whose provider sent the coordinates as strings. -/
def listingStrCoords : JsonVal := .obj [("lat", .str "-33.8"), ("lon", .str "151.0")]

/-- A raw listing with unparsable beds/baths/cars fields. -/
def listingBadFields : JsonVal :=
  .obj [("beds", .str "abc"), ("baths", .str ""), ("cars", .arr [])]

/-- A normalized listing whose parsed price is exactly `0`. -/
def itemPriceZero : NormalizedListing :=
  { price_raw := .num 0, price := some 0, beds := none, baths := none, cars := none,
    address := .null, url := .null, lat := .null, lon := .null }

/-- A normalized listing comfortably under budget. -/
def itemGoodValue : NormalizedListing :=
  { price_raw := .str "$400,000", price := some 400000, beds := none, baths := none,
    cars := none, address := .null, url := .null, lat := .null, lon := .null }

/-- A normalized listing with zero beds, zero price and no raw price text. -/
def itemZeros : NormalizedListing :=
  { price_raw := .null, price := some 0, beds := some 0, baths := none, cars := some 2,
    address := .null, url := .null, lat := .null, lon := .null }

/-! ## Supporting lemmas -/

theorem carCond_iff (o : Option ℤ) :
    (truthyI o && cmpGe o 1) = true ↔ ∃ c, o = some c ∧ 1 ≤ c := by
  cases o with
  | none => simp [truthyI, cmpGe]
  | some n =>
    simp [truthyI, cmpGe]
    omega

theorem bedRule_pros_sub (item : NormalizedListing) :
    ∀ s ∈ (bedRule item).1, s = "2 beds + 2 baths" := by
  unfold bedRule
  split_ifs <;> simp

theorem bedRule_cons_sub (item : NormalizedListing) :
    ∀ s ∈ (bedRule item).2, s = "Only 1 bath for 2 beds" := by
  unfold bedRule
  split_ifs <;> simp

theorem priceRule_pros_sub (item : NormalizedListing) (M : ℤ) :
    ∀ s ∈ (priceRule item M).1, s = "Good value under budget" := by
  unfold priceRule
  split_ifs <;> simp

theorem priceRule_cons_sub (item : NormalizedListing) (M : ℤ) :
    ∀ s ∈ (priceRule item M).2, s = "Close to top of budget" := by
  unfold priceRule
  split_ifs <;> simp

theorem carRule_pros_sub (item : NormalizedListing) :
    ∀ s ∈ (carRule item).1, s = "Has 1+ car space" := by
  unfold carRule
  split_ifs <;> simp

theorem carRule_cons_sub (item : NormalizedListing) :
    ∀ s ∈ (carRule item).2, s = "No dedicated parking listed" := by
  unfold carRule
  split_ifs <;> simp

/-! ## Claim theorems -/

/-- C7: for every normalized listing, if cars ≥ 1 the pros include
"Has 1+ car space", and otherwise (cars null, zero, or below 1) the cons
include "No dedicated parking listed"; exactly one of the two labels is
produced. -/
theorem c7_car_labels (item : NormalizedListing) (max_price : ℤ) :
    ("Has 1+ car space" ∈ (annotate item max_price).1 ↔ ∃ c, item.cars = some c ∧ 1 ≤ c)
    ∧ ("No dedicated parking listed" ∈ (annotate item max_price).2 ↔
        ¬ ∃ c, item.cars = some c ∧ 1 ≤ c) := by
  have hiff := carCond_iff item.cars
  have h1 : "Has 1+ car space" ∉ (bedRule item).1 := fun hm =>
    absurd (bedRule_pros_sub item _ hm) (by decide)
  have h2 : "Has 1+ car space" ∉ (priceRule item max_price).1 := fun hm =>
    absurd (priceRule_pros_sub item max_price _ hm) (by decide)
  have h3 : "No dedicated parking listed" ∉ (bedRule item).2 := fun hm =>
    absurd (bedRule_cons_sub item _ hm) (by decide)
  have h4 : "No dedicated parking listed" ∉ (priceRule item max_price).2 := fun hm =>
    absurd (priceRule_cons_sub item max_price _ hm) (by decide)
  by_cases h : (truthyI item.cars && cmpGe item.cars 1) = true
  · have hc : carRule item = (["Has 1+ car space"], []) := by
      rw [carRule, if_pos h]
    have hex := hiff.mp h
    constructor
    · simp [annotate, hc, hex]
    · simp [annotate, hc, List.mem_append, h3, h4, hex]
  · have hc : carRule item = ([], ["No dedicated parking listed"]) := by
      rw [carRule, if_neg h]
    have hnot : ¬ ∃ c, item.cars = some c ∧ 1 ≤ c := fun hx => h (hiff.mpr hx)
    constructor
    · simp [annotate, hc, List.mem_append, h1, h2, hnot]
    · simp [annotate, hc, List.mem_append, hnot]

/-- C3 counterexample: a listing whose parsed price is exactly `0` is
"known" (non-null) and at most `max_price - 50000`, yet the pros do not
include "Good value under budget" — `if item["price"]` treats the price
0 as falsy, so no price label is produced. -/
theorem c3_counterexample :
    itemPriceZero.price = some 0 ∧ (0 : ℤ) ≤ 500000 - 50000 ∧
    "Good value under budget" ∉ (annotate itemPriceZero 500000).1 := by
  refine ⟨rfl, by decide, ?_⟩
  decide

/-- C3 (amended): the price labels fire as claimed for a known **and
nonzero** price: nonzero price ≤ max_price − 50000 gives the pro,
nonzero price ≥ max_price − 10000 gives the con, and a null price, a
zero price, or one strictly between the thresholds yields no price
label. -/
theorem c3_price_labels (item : NormalizedListing) (max_price p : ℤ) :
    (item.price = some p → p ≠ 0 → p ≤ max_price - 50000 →
      "Good value under budget" ∈ (annotate item max_price).1)
    ∧ (item.price = some p → p ≠ 0 → max_price - 10000 ≤ p →
      "Close to top of budget" ∈ (annotate item max_price).2)
    ∧ ((item.price = none ∨ item.price = some 0 ∨
        (item.price = some p ∧ max_price - 50000 < p ∧ p < max_price - 10000)) →
      "Good value under budget" ∉ (annotate item max_price).1 ∧
      "Close to top of budget" ∉ (annotate item max_price).2) := by
  have hc1 : "Good value under budget" ∉ (carRule item).1 := fun hm =>
    absurd (carRule_pros_sub item _ hm) (by decide)
  have hb1 : "Good value under budget" ∉ (bedRule item).1 := fun hm =>
    absurd (bedRule_pros_sub item _ hm) (by decide)
  have hc2 : "Close to top of budget" ∉ (carRule item).2 := fun hm =>
    absurd (carRule_cons_sub item _ hm) (by decide)
  have hb2 : "Close to top of budget" ∉ (bedRule item).2 := fun hm =>
    absurd (bedRule_cons_sub item _ hm) (by decide)
  refine ⟨?_, ?_, ?_⟩
  · intro hp hne hle
    have hru : priceRule item max_price = (["Good value under budget"], []) := by
      rw [priceRule, if_pos]
      simp [hp, truthyI, cmpLe, hne, hle]
    simp [annotate, hru]
  · intro hp hne hge
    have hru : priceRule item max_price = ([], ["Close to top of budget"]) := by
      rw [priceRule, if_neg, if_pos]
      · simp [hp, truthyI, cmpGe, hne, hge]
      · simp [hp, truthyI, cmpLe, hne]
        omega
    simp [annotate, hru]
  · intro hcase
    have hru : priceRule item max_price = ([], []) := by
      rcases hcase with hp | hp | ⟨hp, hlo, hhi⟩
      · rw [priceRule, if_neg, if_neg] <;> simp [hp, truthyI]
      · rw [priceRule, if_neg, if_neg] <;> simp [hp, truthyI]
      · rw [priceRule, if_neg, if_neg] <;> simp [hp, truthyI, cmpLe, cmpGe] <;> omega
    constructor
    · simp [annotate, hru, List.mem_append, hc1, hb1]
    · simp [annotate, hru, List.mem_append, hc2, hb2]

/-- C3 witness: a concrete listing priced 400000 against a 500000 budget
receives the "Good value under budget" pro. -/
theorem c3_price_labels_witness :
    "Good value under budget" ∈ (annotate itemGoodValue 500000).1 :=
  (c3_price_labels itemGoodValue 500000 400000).1 rfl (by decide) (by decide)

/-- C10: the renderer does not distinguish zero from null: beds/baths/
cars equal to 0 display as "?" exactly like a missing value, and a price
of 0 with no (truthy) raw price text displays as "Price unknown". -/
theorem c10_zero_as_missing (i : NormalizedListing) :
    (orQmark (some 0) = "?" ∧ orQmark none = "?")
    ∧ (i.beds = some 0 → summaryLine i = summaryLine { i with beds := none })
    ∧ (i.baths = some 0 → summaryLine i = summaryLine { i with baths := none })
    ∧ (i.cars = some 0 → summaryLine i = summaryLine { i with cars := none })
    ∧ (truthy i.price_raw = false → i.price = some 0 →
        price_text i = "Price unknown") := by
  refine ⟨⟨rfl, rfl⟩, ?_, ?_, ?_, ?_⟩
  · intro h
    simp [summaryLine, h, orQmark]
  · intro h
    simp [summaryLine, h, orQmark]
  · intro h
    simp [summaryLine, h, orQmark]
  · intro h1 h2
    simp [price_text, h1, h2, truthyI]

/-- C10 witness: a listing with beds = 0, cars = 2, price = 0 and a null
raw price renders "? bed | ? bath | 2 car" and "Price unknown". -/
theorem c10_zero_as_missing_witness :
    summaryLine itemZeros = summaryLine { itemZeros with beds := none }
    ∧ price_text itemZeros = "Price unknown" :=
  ⟨(c10_zero_as_missing itemZeros).2.1 rfl,
   (c10_zero_as_missing itemZeros).2.2.2.2 rfl rfl⟩

/-- C6: the normalizer is total, and every beds/baths/cars value on
which `int(...)` would raise — as well as a missing (`None`) or
empty-string value — becomes `null`; concretely, beds `"abc"`, baths
`""` and a non-numeric cars value all normalize to `null`. -/
theorem c6_unparsable_becomes_null (L : JsonVal) :
    (∀ e, pyIntE (try_get L bedKeys) = .error e → (extract_field L).beds = none)
    ∧ (∀ e, pyIntE (try_get L bathKeys) = .error e → (extract_field L).baths = none)
    ∧ (∀ e, pyIntE (try_get L carKeys) = .error e → (extract_field L).cars = none)
    ∧ (try_get L bedKeys = JsonVal.null → (extract_field L).beds = none)
    ∧ (try_get L bedKeys = JsonVal.str "" → (extract_field L).beds = none)
    ∧ (extract_field listingBadFields).beds = none
    ∧ (extract_field listingBadFields).baths = none
    ∧ (extract_field listingBadFields).cars = none := by
  have key : ∀ v e, pyIntE v = .error e → intField v = none := by
    intro v e he
    unfold intField
    split
    · rfl
    · rw [he]
      rfl
  refine ⟨fun e he => key _ e he, fun e he => key _ e he, fun e he => key _ e he,
    ?_, ?_, by decide, by decide, by decide⟩
  · intro h
    show intField (try_get L bedKeys) = none
    rw [h]
    rfl
  · intro h
    show intField (try_get L bedKeys) = none
    rw [h]
    rfl

/-- C6 witness: the unparsable-beds case at a concrete listing. -/
theorem c6_unparsable_becomes_null_witness :
    (extract_field listingBadFields).beds = none :=
  (c6_unparsable_becomes_null listingBadFields).1 "invalid literal for int" rfl

/-- C8 counterexample: a provider record carrying its coordinates as
strings: the normalizer's `lat` is the string `"-33.8"` — neither a
float nor null — contradicting the claimed invariant. -/
theorem c8_counterexample :
    (extract_field listingStrCoords).lat = JsonVal.str "-33.8"
    ∧ isNull (extract_field listingStrCoords).lat = false
    ∧ isNumOrNull (extract_field listingStrCoords).lat = false :=
  ⟨rfl, rfl, rfl⟩

/-- C8 (amended): the normalizer carries the raw provider values of
`lat` and `lon` through entirely unchanged (whatever their type); they
are not coerced to floats — coercion only happens later, in geocoding or
in the guarded distance computation. -/
theorem c8_coords_passthrough (L : JsonVal) :
    (extract_field L).lat = try_get L latKeys
    ∧ (extract_field L).lon = try_get L lonKeys :=
  ⟨rfl, rfl⟩

theorem priorityLookup_eq (kvs : List (String × JsonVal)) (ks : List String) :
    priorityLookup kvs ks = ks.findSome? (fun k =>
      match kvs.lookup k with
      | some (JsonVal.arr l) => some l
      | _ => none) := by
  induction ks with
  | nil => rfl
  | cons k ks ih =>
    rw [List.findSome?_cons]
    cases h : kvs.lookup k with
    | none => simpa [priorityLookup, h] using ih
    | some v => cases v <;> simp [priorityLookup, h, ih]

theorem fallbackScan_eq (kvs : List (String × JsonVal)) :
    fallbackScan kvs = kvs.findSome? (fun kv =>
      match kv.2 with
      | JsonVal.arr (x :: xs) =>
        match x with
        | JsonVal.obj _ => some (x :: xs)
        | _ => none
      | _ => none) := by
  induction kvs with
  | nil => rfl
  | cons kv rest ih =>
    obtain ⟨k, v⟩ := kv
    rw [List.findSome?_cons]
    cases v with
    | arr xs =>
      cases xs with
      | nil => simpa [fallbackScan] using ih
      | cons x xs => cases x <;> simp [fallbackScan, ih]
    | null => simpa [fallbackScan] using ih
    | bool b => simpa [fallbackScan] using ih
    | num q => simpa [fallbackScan] using ih
    | str s => simpa [fallbackScan] using ih
    | obj o => simpa [fallbackScan] using ih

/-- C4: the container locator implements exactly the spec's algorithm —
priority keys "properties", "listings", "results", "data", "items" in
order (first whose value is a sequence), then the first mapping value in
iteration order that is a non-empty sequence of records, a top-level
sequence returned directly, not-found otherwise; in particular a mapping
with "properties" bound to a sequence always returns that sequence. -/
theorem c4_locator :
    (∀ j : JsonVal, find_listings_container j = spec_locate j)
    ∧ (∀ (kvs : List (String × JsonVal)) (l : List JsonVal),
        kvs.lookup "properties" = some (JsonVal.arr l) →
        find_listings_container (JsonVal.obj kvs) = some l) := by
  constructor
  · intro j
    cases j with
    | obj kvs =>
      rw [find_listings_container, spec_locate, priorityLookup_eq, fallbackScan_eq]
    | arr xs => rfl
    | null => rfl
    | bool b => rfl
    | num q => rfl
    | str s => rfl
  · intro kvs l h
    simp [find_listings_container, candidates, priorityLookup, h]

/-- C4 witness: a response with an unrelated key before "properties"
still yields the "properties" list. -/
theorem c4_locator_witness :
    find_listings_container sampleResponse
      = some [JsonVal.obj [("price", JsonVal.num 450000)]] :=
  c4_locator.2 _ _ rfl

theorem digit_not_ws (c : Char) (h : c.isDigit = true) : c.isWhitespace = false := by
  by_contra hw
  rw [Bool.not_eq_false] at hw
  simp [Char.isWhitespace] at hw
  rcases hw with ((h1 | h1) | h1) | h1 <;> subst h1 <;> exact absurd h (by decide)

theorem dropWhile_ws_of_digits (l : List Char) (h : ∀ c ∈ l, c.isDigit) :
    l.dropWhile Char.isWhitespace = l := by
  cases l with
  | nil => rfl
  | cons c cs =>
    rw [List.dropWhile_cons]
    simp [digit_not_ws c (h c (by simp))]

theorem stripWS_digits (ds : List Char) (h : ∀ c ∈ ds, c.isDigit) : stripWS ds = ds := by
  unfold stripWS
  rw [dropWhile_ws_of_digits ds h,
    dropWhile_ws_of_digits ds.reverse (fun c hc => h c (List.mem_reverse.mp hc)),
    List.reverse_reverse]

theorem pyDigitsRest_digits (ds : List Char) (h : ∀ c ∈ ds, c.isDigit) :
    pyDigitsRest ds = some ds := by
  induction ds with
  | nil => rfl
  | cons c cs ih =>
    have hc : c.isDigit := h c (by simp)
    have hne : ¬ c = '_' := by
      intro he
      rw [he] at hc
      exact absurd hc (by decide)
    rw [pyDigitsRest.eq_def]
    simp only [if_neg hne, hc, if_true]
    rw [ih (fun d hd => h d (by simp [hd]))]
    rfl

theorem pyDigits_digits (ds : List Char) (h : ∀ c ∈ ds, c.isDigit) (hne : ds ≠ []) :
    pyDigits ds = some ds := by
  cases ds with
  | nil => exact absurd rfl hne
  | cons c cs =>
    simp [pyDigits, h c (by simp),
      pyDigitsRest_digits cs (fun d hd => h d (by simp [hd]))]

theorem pyIntOfString_digits (ds : List Char) (hne : ds ≠ [])
    (h : ∀ c ∈ ds, c.isDigit) :
    pyIntOfString (String.mk ds) = some ((digitsVal ds : ℤ)) := by
  unfold pyIntOfString
  rw [show (String.mk ds).toList = ds from rfl, stripWS_digits ds h]
  cases ds with
  | nil => exact absurd rfl hne
  | cons c cs =>
    have hc : c.isDigit := h c (by simp)
    have h1 : ¬ c = '+' := by
      intro he
      rw [he] at hc
      exact absurd hc (by decide)
    have h2 : ¬ c = '-' := by
      intro he
      rw [he] at hc
      exact absurd hc (by decide)
    simp only [pyIntCore, if_neg h1, if_neg h2, pyDigits_digits _ h (by simp)]
    rfl

theorem digitRunsGo_flatten (cs : List Char) : ∀ cur : List Char,
    (digitRunsGo cur cs).flatten = cur.reverse ++ cs.filter Char.isDigit := by
  induction cs with
  | nil =>
    intro cur
    cases cur <;> simp [digitRunsGo]
  | cons c rest ih =>
    intro cur
    by_cases h : c.isDigit
    · rw [show digitRunsGo cur (c :: rest) = digitRunsGo (c :: cur) rest from by
        simp [digitRunsGo, h]]
      rw [ih (c :: cur)]
      simp [List.filter_cons, h]
    · cases cur with
      | nil =>
        rw [show digitRunsGo [] (c :: rest) = digitRunsGo [] rest from by
          simp [digitRunsGo, h]]
        rw [ih []]
        simp [List.filter_cons, h]
      | cons d ds =>
        rw [show digitRunsGo (d :: ds) (c :: rest)
            = (d :: ds).reverse :: digitRunsGo [] rest from by simp [digitRunsGo, h]]
        simp [ih [], List.filter_cons, h]

theorem digitRunsGo_ne_nil (cs : List Char) : ∀ cur r, r ∈ digitRunsGo cur cs → r ≠ [] := by
  induction cs with
  | nil =>
    intro cur r hr
    cases cur with
    | nil => simp [digitRunsGo] at hr
    | cons d ds =>
      simp [digitRunsGo] at hr
      subst hr
      simp
  | cons c rest ih =>
    intro cur r hr
    by_cases h : c.isDigit
    · rw [show digitRunsGo cur (c :: rest) = digitRunsGo (c :: cur) rest from by
        simp [digitRunsGo, h]] at hr
      exact ih (c :: cur) r hr
    · cases cur with
      | nil =>
        rw [show digitRunsGo [] (c :: rest) = digitRunsGo [] rest from by
          simp [digitRunsGo, h]] at hr
        exact ih [] r hr
      | cons d ds =>
        rw [show digitRunsGo (d :: ds) (c :: rest)
            = (d :: ds).reverse :: digitRunsGo [] rest from by simp [digitRunsGo, h]] at hr
        rcases List.mem_cons.mp hr with hr | hr
        · subst hr
          simp
        · exact ih [] r hr

theorem ratTrunc_intCast (n : ℤ) : ratTrunc (n : ℚ) = n := by
  unfold ratTrunc
  split_ifs with h
  · simp
  · rw [show (-(n : ℚ)) = ((-n : ℤ) : ℚ) by push_cast; ring, Int.floor_intCast]
    ring

theorem priceVal_str (s : String) :
    priceVal (JsonVal.str s) =
      (if (dropCommas s).filter Char.isDigit = [] then none
       else some ((digitsVal ((dropCommas s).filter Char.isDigit) : ℤ))) := by
  have hfl : (digitRuns (dropCommas s)).flatten = (dropCommas s).filter Char.isDigit := by
    simpa [digitRuns] using digitRunsGo_flatten (dropCommas s) []
  rw [priceVal.eq_def]
  simp only []
  cases hn : digitRuns (dropCommas s) with
  | nil =>
    have h0 : (dropCommas s).filter Char.isDigit = [] := by
      rw [← hfl, hn]
      rfl
    simp [h0]
  | cons r rs =>
    have hrne : r ≠ [] := by
      apply digitRunsGo_ne_nil (dropCommas s) []
      rw [show digitRunsGo [] (dropCommas s) = digitRuns (dropCommas s) from rfl, hn]
      simp
    have hne : (dropCommas s).filter Char.isDigit ≠ [] := by
      rw [← hfl, hn]
      simp [hrne]
    have hdig : ∀ c ∈ ((r :: rs) : List (List Char)).flatten, c.isDigit := by
      rw [← hn, hfl]
      intro c hc
      exact List.of_mem_filter hc
    have hflne : ((r :: rs) : List (List Char)).flatten ≠ [] := by
      rw [← hn, hfl]
      exact hne
    have hval := pyIntOfString_digits _ hflne hdig
    have hee : ((r :: rs) : List (List Char)).flatten = (dropCommas s).filter Char.isDigit := by
      rw [← hn, hfl]
    rw [hee] at hval
    simp only [List.isEmpty_cons, if_neg hne, Bool.false_eq_true, if_false, pyIntE,
      exceptToNone, hee, hval]

/-- C5: price normalization — an integer price is taken directly, a
float is truncated by `int()`, a textual price has its thousands
separators stripped, its digit runs concatenated and parsed (so
"$450,000" yields 450000), a digitless text gives null, and a missing or
empty field gives null. -/
theorem c5_price_normalization (s : String) (q : ℚ) (n : ℤ) (L : JsonVal) :
    (priceVal (JsonVal.num (n : ℚ)) = some n)
    ∧ (priceVal (JsonVal.num q) = some (ratTrunc q))
    ∧ (priceVal (JsonVal.str s) =
        (if (dropCommas s).filter Char.isDigit = [] then none
         else some ((digitsVal ((dropCommas s).filter Char.isDigit) : ℤ))))
    ∧ (priceVal (JsonVal.str "$450,000") = some 450000)
    ∧ (priceVal (JsonVal.str "") = none)
    ∧ (try_get L priceKeys = JsonVal.null → (extract_field L).price = none) := by
  refine ⟨?_, rfl, priceVal_str s, by decide, rfl, ?_⟩
  · simp [priceVal, pyIntE, exceptToNone, ratTrunc_intCast]
  · intro h
    show priceVal (try_get L priceKeys) = none
    rw [h]
    rfl

/-- C5 witness: the missing-price case at a concrete empty record, plus
the claim's flagship example. -/
theorem c5_price_normalization_witness :
    (extract_field (JsonVal.obj [])).price = none
    ∧ priceVal (JsonVal.str "$450,000") = some 450000 :=
  ⟨(c5_price_normalization "" 0 0 (JsonVal.obj [])).2.2.2.2.2 rfl,
   (c5_price_normalization "" 0 0 (JsonVal.obj [])).2.2.2.1⟩

theorem distances_falsy (lat lon : JsonVal)
    (h : truthy lat = false ∨ truthy lon = false) :
    distances lat lon = (none, none) := by
  unfold distances
  rcases h with h | h <;> simp [h]

theorem distances_num (a b : ℚ) (ha : a ≠ 0) (hb : b ≠ 0) :
    distances (JsonVal.num a) (JsonVal.num b) =
      (some (round2 (haversine_km a b STATION_COORDS.1 STATION_COORDS.2)),
       some (round2 (haversine_km a b PARK_COORDS.1 PARK_COORDS.2))) := by
  unfold distances
  simp [truthy, ha, hb, pyFloat]

/-- C2 counterexample: a listing whose latitude is the float `0.0` —
present, not null — still gets null distances, because the distance
block is guarded by Python truthiness (`if item["lat"] and
item["lon"]`), not by a null check. -/
theorem c2_counterexample :
    isNull (enrich geoNone 500000 listingZeroLat).raw.lat = false
    ∧ isNull (enrich geoNone 500000 listingZeroLat).raw.lon = false
    ∧ (enrich geoNone 500000 listingZeroLat).dist_station_km = none
    ∧ (enrich geoNone 500000 listingZeroLat).dist_park_km = none := by
  refine ⟨rfl, rfl, ?_, ?_⟩
  · show (distances (JsonVal.num 0) (JsonVal.num 151)).1 = none
    rw [distances_falsy _ _ (Or.inl (by decide))]
  · show (distances (JsonVal.num 0) (JsonVal.num 151)).2 = none
    rw [distances_falsy _ _ (Or.inl (by decide))]

/-- C2 (amended): an enriched listing's distances are exactly
`distances` of its final coordinates; they are null whenever a
coordinate is null (and more generally whenever one is falsy or not
convertible to a number), and whenever both coordinates are nonzero
numbers each distance is the haversine great-circle distance (Earth
radius 6371.0 km) to the fixed landmark, rounded to 2 decimal places. -/
theorem c2_distances (geo : String → Option (ℚ × ℚ)) (max_price : ℤ) (L : JsonVal) :
    ((enrich geo max_price L).dist_station_km, (enrich geo max_price L).dist_park_km)
        = distances (enrich geo max_price L).raw.lat (enrich geo max_price L).raw.lon
    ∧ ((enrich geo max_price L).raw.lat = JsonVal.null ∨
        (enrich geo max_price L).raw.lon = JsonVal.null →
        (enrich geo max_price L).dist_station_km = none ∧
        (enrich geo max_price L).dist_park_km = none)
    ∧ (∀ a b : ℚ, (enrich geo max_price L).raw.lat = JsonVal.num a →
        (enrich geo max_price L).raw.lon = JsonVal.num b → a ≠ 0 → b ≠ 0 →
        (enrich geo max_price L).dist_station_km =
            some (round2 (haversine_km a b STATION_COORDS.1 STATION_COORDS.2)) ∧
        (enrich geo max_price L).dist_park_km =
            some (round2 (haversine_km a b PARK_COORDS.1 PARK_COORDS.2))) := by
  have h1 : (enrich geo max_price L).dist_station_km =
      (distances (enrich geo max_price L).raw.lat (enrich geo max_price L).raw.lon).1 := rfl
  have h2 : (enrich geo max_price L).dist_park_km =
      (distances (enrich geo max_price L).raw.lat (enrich geo max_price L).raw.lon).2 := rfl
  refine ⟨rfl, ?_, ?_⟩
  · intro h
    have hf : truthy (enrich geo max_price L).raw.lat = false ∨
        truthy (enrich geo max_price L).raw.lon = false := by
      rcases h with h | h <;> rw [h] <;> simp [truthy]
    rw [h1, h2, distances_falsy _ _ hf]
    exact ⟨rfl, rfl⟩
  · intro a b hla hlo ha hb
    rw [h1, h2, hla, hlo, distances_num a b ha hb]
    exact ⟨rfl, rfl⟩

/-- C2 witness: a listing with coordinates (-33, 151) gets both
haversine distances. -/
theorem c2_distances_witness :
    (enrich geoNone 500000 listingWithCoords).dist_station_km =
      some (round2 (haversine_km ((-33 : ℚ) : ℝ) ((151 : ℚ) : ℝ)
        ((STATION_COORDS.1 : ℚ) : ℝ) ((STATION_COORDS.2 : ℚ) : ℝ)))
    ∧ (enrich geoNone 500000 listingWithCoords).dist_park_km =
      some (round2 (haversine_km ((-33 : ℚ) : ℝ) ((151 : ℚ) : ℝ)
        ((PARK_COORDS.1 : ℚ) : ℝ) ((PARK_COORDS.2 : ℚ) : ℝ))) :=
  (c2_distances geoNone 500000 listingWithCoords).2.2 (-33) 151 rfl rfl
    (by norm_num) (by norm_num)

/-- C9: enrichment never drops or merges listings — n raw listings give
exactly n enriched listings, each obtained by enriching the raw listing
at the same position, and the renderer emits exactly one block per
enriched listing in input order (after the single title line). -/
theorem c9_no_drop_or_merge (geo : String → Option (ℚ × ℚ)) (max_price : ℤ)
    (listings : List JsonVal) :
    (processListings geo max_price listings).length = listings.length
    ∧ (∀ i : ℕ, (processListings geo max_price listings)[i]? =
        (listings[i]?).map (enrich geo max_price))
    ∧ (listingBlocks (processListings geo max_price listings)).length = listings.length
    ∧ (∀ i : ℕ, (listingBlocks (processListings geo max_price listings))[i]? =
        ((listings[i]?).map (enrich geo max_price)).map block)
    ∧ render max_price (processListings geo max_price listings) =
        OutLine.text ("Parramatta Property Listings (Under $" ++ toString max_price ++ ")")
          :: (listingBlocks (processListings geo max_price listings)).flatten := by
  refine ⟨by simp [processListings], ?_, by simp [listingBlocks, processListings], ?_, rfl⟩
  · intro i
    simp [processListings]
  · intro i
    simp [listingBlocks, processListings, Option.map_map]

/-- C1 counterexample: with credentials present, a 200 status and a
response in which the locator *does* find a container (the `"properties"`
list, which happens to be empty), the run still aborts — `if not
listings:` treats a located-but-empty container like a missing one.  So
abnormal termination is not equivalent to the claim's three structural
failures. -/
theorem c1_counterexample :
    isErr (run_search_and_build_pdf (some "k") (some "h") 500000 200
      emptyContainerResponse geoNone) = true
    ∧ pyTruthyEnv (some "k") = true
    ∧ pyTruthyEnv (some "h") = true
    ∧ find_listings_container emptyContainerResponse = some [] := by
  refine ⟨?_, by decide, by decide, rfl⟩
  rfl

/-- C1 (amended): the run aborts (non-zero, with a diagnostic message)
iff credentials are absent (unset or empty), the API status is not 200,
or the locator finds no container **or finds an empty one**; in every
other case the run completes and produces the report. -/
theorem c1_abnormal_iff (key host : Option String) (max_price : ℤ) (status : ℕ)
    (j : JsonVal) (geo : String → Option (ℚ × ℚ)) :
    isErr (run_search_and_build_pdf key host max_price status j geo) = true ↔
      (pyTruthyEnv key = false ∨ pyTruthyEnv host = false ∨ status ≠ 200 ∨
        find_listings_container j = none ∨ find_listings_container j = some []) := by
  unfold run_search_and_build_pdf
  by_cases hk : (!pyTruthyEnv key || !pyTruthyEnv host) = true
  · rw [if_pos hk]
    simp only [isErr, true_iff]
    simp at hk
    tauto
  · rw [if_neg hk]
    simp at hk
    obtain ⟨hkey, hhost⟩ := hk
    by_cases hs : status ≠ 200
    · rw [if_pos hs]
      simp only [isErr, true_iff]
      tauto
    · rw [if_neg hs]
      cases hf : find_listings_container j with
      | none =>
        simp only [isErr, true_iff]
        tauto
      | some ls =>
        cases ls with
        | nil =>
          simp only [isErr, true_iff]
          tauto
        | cons x xs =>
          refine iff_of_false ?_ ?_
          · simp [isErr]
          push_neg at hs
          rintro (h | h | h | h | h)
          · rw [hkey] at h
            exact absurd h (by decide)
          · rw [hhost] at h
            exact absurd h (by decide)
          · exact h hs
          · exact Option.noConfusion h
          · exact List.noConfusion (Option.some.inj h)
